import Mathlib

/-!
Verification of the corporate-registry extraction pipeline.

Each Python source function is shallowly embedded as an executable Lean
definition operating on `String` / `List Char`.  Regular-expression
patterns are embedded through a small list-of-successes matching engine
whose alternative order reproduces the backtracking preference order of
Python's `re` module (greedy quantifiers, leftmost search,
non-overlapping `finditer`).  Python's `\d`, `\w`, `\s` classes and
`str.lower`/`str.upper` are modelled on the ASCII range plus the accented
Latin letters that occur in this code base; `unicodedata.normalize("NFKD", _)`
is modelled by a decomposition table restricted to those same characters
and is the identity on every other character.
-/

namespace Spec2Proof

/-- Sentinel string used across the pipeline (`DATA_NOT_AVAILABLE`). -/
def DATA_NOT_AVAILABLE : String := "Dado não disponível no documento"

/-- Whitespace set of Python `str.strip` / `str.split` / regex `\s`
(ASCII part; the rare non-ASCII Unicode spaces are not modelled). -/
def pyIsSpace (c : Char) : Bool :=
  c = ' ' || c = '\t' || c = '\n' || c = '\r' || c = '\x0b' || c = '\x0c'

/-- ASCII decimal digit, modelling Python's `\d` (whose full Unicode
Nd category is not reachable from the patterns in this code base). -/
def isDigitCh (c : Char) : Bool := c.isDigit

/-- ASCII lowercase letter, the `[a-z]` class without `re.IGNORECASE`. -/
def isLowerAZ (c : Char) : Bool := 'a' ≤ c && c ≤ 'z'

/-- ASCII uppercase letter, the `[A-Z]` class without `re.IGNORECASE`. -/
def isUpperAZ (c : Char) : Bool := 'A' ≤ c && c ≤ 'Z'

/-- ASCII letter of either case, the `[a-z]` class under `re.IGNORECASE`. -/
def isAlphaCI (c : Char) : Bool := isLowerAZ c || isUpperAZ c

/-- Word character for `\b`, modelling Python `\w` on the ASCII range. -/
def wordChar (c : Char) : Bool := c.isAlphanum || c = '_'

/-- Python `str.lower` restricted to ASCII plus the accented uppercase
letters appearing in this code base. -/
def pyLower (c : Char) : Char :=
  if c = 'Ç' then 'ç' else if c = 'Ã' then 'ã' else if c = 'Á' then 'á'
  else if c = 'À' then 'à' else if c = 'Â' then 'â' else if c = 'É' then 'é'
  else if c = 'Ê' then 'ê' else if c = 'Í' then 'í' else if c = 'Ó' then 'ó'
  else if c = 'Ô' then 'ô' else if c = 'Õ' then 'õ' else if c = 'Ú' then 'ú'
  else if c = 'Ü' then 'ü' else c.toLower

/-- Python `str.upper` restricted to ASCII plus the accented lowercase
letters appearing in this code base. -/
def pyUpper (c : Char) : Char :=
  if c = 'ç' then 'Ç' else if c = 'ã' then 'Ã' else if c = 'á' then 'Á'
  else if c = 'à' then 'À' else if c = 'â' then 'Â' else if c = 'é' then 'É'
  else if c = 'ê' then 'Ê' else if c = 'í' then 'Í' else if c = 'ó' then 'Ó'
  else if c = 'ô' then 'Ô' else if c = 'õ' then 'Õ' else if c = 'ú' then 'Ú'
  else if c = 'ü' then 'Ü' else c.toUpper

/-- NFKD decomposition of one character: the accented Latin letters of
this code base decompose into a base letter followed by a combining
mark; every other character is left unchanged. -/
def nfkdChar (c : Char) : List Char :=
  if c = 'ç' then ['c', '̧'] else if c = 'Ç' then ['C', '̧']
  else if c = 'ã' then ['a', '̃'] else if c = 'Ã' then ['A', '̃']
  else if c = 'õ' then ['o', '̃'] else if c = 'Õ' then ['O', '̃']
  else if c = 'á' then ['a', '́'] else if c = 'Á' then ['A', '́']
  else if c = 'é' then ['e', '́'] else if c = 'É' then ['E', '́']
  else if c = 'í' then ['i', '́'] else if c = 'Í' then ['I', '́']
  else if c = 'ó' then ['o', '́'] else if c = 'Ó' then ['O', '́']
  else if c = 'ú' then ['u', '́'] else if c = 'Ú' then ['U', '́']
  else if c = 'à' then ['a', '̀'] else if c = 'À' then ['A', '̀']
  else if c = 'â' then ['a', '̂'] else if c = 'Â' then ['A', '̂']
  else if c = 'ê' then ['e', '̂'] else if c = 'Ê' then ['E', '̂']
  else if c = 'ô' then ['o', '̂'] else if c = 'Ô' then ['O', '̂']
  else if c = 'ü' then ['u', '̈'] else if c = 'Ü' then ['U', '̈']
  else [c]

/-- `unicodedata.normalize("NFKD", s)` over the modelled character set. -/
def nfkd (l : List Char) : List Char := l.flatMap nfkdChar

/-- Characterwise Python `str.lower`. -/
def pyLowerStr (l : List Char) : List Char := l.map pyLower

/-- Characterwise Python `str.upper`. -/
def pyUpperStr (l : List Char) : List Char := l.map pyUpper

/-- Python `str.strip()`: drop leading and trailing whitespace. -/
def pyStrip (l : List Char) : List Char :=
  ((l.dropWhile pyIsSpace).reverse.dropWhile pyIsSpace).reverse

/-- Does `hay` start with `needle`? -/
def startsWithL : List Char → List Char → Bool
  | [], _ => true
  | _ :: _, [] => false
  | a :: as, b :: bs => a = b && startsWithL as bs

/-- Python's substring containment `needle in hay`. -/
def isSubstring (needle : List Char) : List Char → Bool
  | [] => startsWithL needle []
  | c :: cs => startsWithL needle (c :: cs) || isSubstring needle cs

/-- Python `hay.find(needle)`, `none` standing for `-1`. -/
def findSubstrAux (needle : List Char) (i : Nat) : List Char → Option Nat
  | [] => if startsWithL needle [] then some i else none
  | c :: cs => if startsWithL needle (c :: cs) then some i else findSubstrAux needle (i + 1) cs

/-- First index at which `needle` occurs in `hay`. -/
def findSubstr (needle hay : List Char) : Option Nat := findSubstrAux needle 0 hay

/-- Numeric value of an all-digit string, modelling Python `int`. -/
def toNatD (l : List Char) : Nat := l.foldl (fun n c => n * 10 + (c.toNat - 48)) 0

/-- Python `str.zfill(2)`. -/
def zfill2 (s : String) : String :=
  if s.length ≥ 2 then s else String.mk (List.replicate (2 - s.length) '0' ++ s.toList)

/-! ### A list-of-successes matching engine

A pattern maps an input suffix to the list of residual suffixes left by
every way of matching a prefix of the input, ordered by the preference
order of Python's backtracking engine (greedy quantifiers first,
alternatives left to right).  The head of the list is the alternative
Python commits to. -/

/-- A pattern: all residual suffixes after matching, best first. -/
def Pat : Type := List Char → List (List Char)

/-- The empty pattern. -/
def pEps : Pat := fun s => [s]

/-- Single character from a class. -/
def pCh (p : Char → Bool) : Pat := fun s =>
  match s with
  | [] => []
  | c :: cs => if p c then [cs] else []

/-- One literal character. -/
def pLitCh (c : Char) : Pat := pCh (fun d => d = c)

/-- One literal character, case-insensitively. -/
def pLitChCI (c : Char) : Pat := pCh (fun d => pyLower d = pyLower c)

/-- Concatenation of two patterns. -/
def pSeq (a b : Pat) : Pat := fun s => (a s).flatMap b

/-- Alternation, left alternative preferred. -/
def pAlt (a b : Pat) : Pat := fun s => a s ++ b s

/-- Greedy `?`: matching is preferred over skipping. -/
def pOpt (a : Pat) : Pat := fun s => a s ++ [s]

/-- Literal word from a list of characters. -/
def pLitL : List Char → Pat
  | [] => pEps
  | c :: cs => pSeq (pLitCh c) (pLitL cs)

/-- Literal word. -/
def pLit (w : String) : Pat := pLitL w.toList

/-- Case-insensitive literal word. -/
def pLitCIL : List Char → Pat
  | [] => pEps
  | c :: cs => pSeq (pLitChCI c) (pLitCIL cs)

/-- Case-insensitive literal word. -/
def pLitCI (w : String) : Pat := pLitCIL w.toList

/-- Consume exactly `n` characters of a class. -/
def pCount (p : Char → Bool) : Nat → List Char → Option (List Char)
  | 0, s => some s
  | _ + 1, [] => none
  | n + 1, c :: cs => if p c then pCount p n cs else none

/-- Greedy bounded repetition `{lo,hi}` of a character class. -/
def pRep (p : Char → Bool) (lo hi : Nat) : Pat := fun s =>
  (List.range (hi + 1 - lo)).filterMap (fun i => pCount p (hi - i) s)

/-- Greedy `+` of a character class. -/
def pPlus (p : Char → Bool) : Pat := fun s =>
  let k := (s.takeWhile p).length
  (List.range k).map (fun i => s.drop (k - i))

/-- Greedy `*` of a character class. -/
def pStar (p : Char → Bool) : Pat := fun s =>
  let k := (s.takeWhile p).length
  (List.range (k + 1)).map (fun i => s.drop (k - i))

/-- Greedy `+` of a sub-pattern (used for repeated groups); the fuel is
an upper bound on the number of iterations, each of which consumes at
least one character for every pattern in this development. -/
def pPlusPatAux (a : Pat) : Nat → Pat
  | 0 => fun _ => []
  | n + 1 => fun s =>
    (a s).flatMap (fun r =>
      if r.length < s.length then pPlusPatAux a n r ++ [r] else [r])

/-- Greedy `+` of a sub-pattern. -/
def pPlusPat (a : Pat) : Pat := fun s => pPlusPatAux a (s.length + 1) s

/-- Zero-width `\b` for positions whose preceding character is known to
be a word character (all `\b` uses in this code base are adjacent to
digits or letters): matches iff the next character is absent or not a
word character. -/
def pWordBreak : Pat := fun s =>
  match s with
  | [] => [[]]
  | c :: cs => if wordChar c then [] else [c :: cs]

/-- A pattern with one capturing group: an optional leading word
boundary, a prefix, the group, and a zero-width trailer. -/
structure CPat where
  boundaryBefore : Bool
  pre : Pat
  grp : Pat
  post : Pat

/-- A regex match: start offset, captured group, full match length. -/
structure RMatch where
  pos : Nat
  cap : List Char
  len : Nat
deriving DecidableEq

/-- Try `cp` anchored at the head of `s`; Python commits to the first
alternative in preference order. -/
def matchCPatAt (cp : CPat) (s : List Char) : Option (List Char × Nat) :=
  ((cp.pre s).flatMap (fun r1 =>
    (cp.grp r1).flatMap (fun r2 =>
      (cp.post r2).map (fun r3 =>
        (r1.take (r1.length - r2.length), s.length - r3.length))))).head?

/-- Leftmost search: try each start position in order, tracking the
previous character for the word-boundary test. -/
def searchCPatAux (cp : CPat) (prev : Option Char) (pos : Nat) : List Char → Option RMatch
  | [] =>
    if cp.boundaryBefore && (match prev with | none => false | some c => wordChar c) then none
    else (matchCPatAt cp []).map (fun pr => ⟨pos, pr.1, pr.2⟩)
  | c :: cs =>
    let here :=
      if cp.boundaryBefore && (match prev with | none => false | some c0 => wordChar c0) then none
      else (matchCPatAt cp (c :: cs)).map (fun pr => (⟨pos, pr.1, pr.2⟩ : RMatch))
    match here with
    | some m => some m
    | none => searchCPatAux cp (some c) (pos + 1) cs

/-- Python `re.search`: leftmost match of `cp` in `s`. -/
def searchCPat (cp : CPat) (s : List Char) : Option RMatch :=
  searchCPatAux cp none 0 s

/-- Python `re.finditer`: non-overlapping matches in scan order; after a
match the scan resumes at its end (one past it for an empty match). -/
def finditerAux (cp : CPat) : Nat → Option Char → Nat → List Char → List RMatch
  | 0, _, _, _ => []
  | fuel + 1, prev, pos, s =>
    match searchCPatAux cp prev pos s with
    | none => []
    | some m =>
      let step := (m.pos - pos) + max m.len 1
      m :: finditerAux cp fuel ((s.take step).getLast?) (pos + step) (s.drop step)

/-- All matches of `cp` in `s`. -/
def finditerCPat (cp : CPat) (s : List Char) : List RMatch :=
  finditerAux cp (s.length + 1) none 0 s

/-! ### CNPJ extractor (`src/extractors/cnpj_extractor.py`) -/

/-- Digit-only form, modelling `re.sub(r'\D', '', s)`. -/
def digitsOf (l : List Char) : List Char := l.filter isDigitCh

/-- The group `\d{2}\.?\d{3}\.?\d{3}\/?\d{4}-?\d{2}`. -/
def cnpjGroupPat : Pat :=
  pSeq (pRep isDigitCh 2 2) (pSeq (pOpt (pLitCh '.'))
    (pSeq (pRep isDigitCh 3 3) (pSeq (pOpt (pLitCh '.'))
      (pSeq (pRep isDigitCh 3 3) (pSeq (pOpt (pLitCh '/'))
        (pSeq (pRep isDigitCh 4 4) (pSeq (pOpt (pLitCh '-'))
          (pRep isDigitCh 2 2))))))))

/-- The group `\d{14}`. -/
def cnpj14Pat : Pat := pRep isDigitCh 14 14

/-- The class repetition `[:\s-]*` after a label. -/
def labelSepPat : Pat := pStar (fun c => c = ':' || pyIsSpace c || c = '-')

/-- Pattern 1 of `cnpj_patterns`: `\b(\d{2}\.?\d{3}\.?\d{3}\/?\d{4}-?\d{2})\b`. -/
def cnpjPat1 : CPat := ⟨true, pEps, cnpjGroupPat, pWordBreak⟩

/-- Pattern 2 of `cnpj_patterns`: `\b(\d{14})\b`. -/
def cnpjPat2 : CPat := ⟨true, pEps, cnpj14Pat, pWordBreak⟩

/-- Pattern 3 of `cnpj_patterns`: `CNPJ[:\s-]*(...)` (case-insensitive). -/
def cnpjPat3 : CPat := ⟨false, pSeq (pLitCI "CNPJ") labelSepPat, cnpjGroupPat, pEps⟩

/-- Pattern 4 of `cnpj_patterns`: `SEDE[:\s-]*(...)` (case-insensitive). -/
def cnpjPat4 : CPat := ⟨false, pSeq (pLitCI "SEDE") labelSepPat, cnpjGroupPat, pEps⟩

/-- The ordered list `self.cnpj_patterns` from `CNPJExtractor.__init__`. -/
def cnpj_patterns : List CPat := [cnpjPat1, cnpjPat2, cnpjPat3, cnpjPat4]

/-- Format 14 digits as `XX.XXX.XXX/XXXX-XX` (`CNPJExtractor.normalize`,
formatting step with the block indices 2, 5, 8, 12). -/
def formatCNPJ (d : List Char) : String :=
  String.mk (d.take 2 ++ '.' :: ((d.drop 2).take 3 ++ '.' ::
    ((d.drop 5).take 3 ++ '/' :: ((d.drop 8).take 4 ++ '-' :: d.drop 12))))

/-- `CNPJExtractor.normalize`: strip non-digits, require exactly 14
digits, format. -/
def normalize (cnpj : String) : String :=
  if cnpj = "" then ""
  else
    let digits := digitsOf cnpj.toList
    if digits.length ≠ 14 then "" else formatCNPJ digits

/-- One pattern of the loop body of `CNPJExtractor.extract_from_ocr`:
the first `finditer` match whose digit-only form has exactly 14 digits,
returned normalized. -/
def tryPatternCNPJ (cp : CPat) (s : List Char) : Option String :=
  ((finditerCPat cp s).filterMap (fun m =>
    let ds := digitsOf m.cap
    if ds.length = 14 then some (normalize (String.mk ds)) else none)).head?

/-- `CNPJExtractor.extract_from_ocr`: try the patterns in order, return
the first hit, else the empty string. -/
def extract_from_ocr (ocr : String) : String :=
  if ocr = "" then ""
  else
    match (cnpj_patterns.filterMap (fun cp => tryPatternCNPJ cp ocr.toList)).head? with
    | some v => v
    | none => ""

/-! ### Date extractor (`src/extractors/date_extractor.py`) -/

/-- The fixed month-name table `MONTH_NAMES`. -/
def MONTH_NAMES : List (String × String) :=
  [("janeiro", "01"), ("fevereiro", "02"), ("março", "03"), ("marco", "03"),
   ("abril", "04"), ("maio", "05"), ("junho", "06"), ("julho", "07"),
   ("agosto", "08"), ("setembro", "09"), ("outubro", "10"),
   ("novembro", "11"), ("dezembro", "12")]

/-- Dictionary lookup `MONTH_NAMES.get(name)`. -/
def monthLookup (name : String) : Option String :=
  (MONTH_NAMES.find? (fun p => p.1 = name)).map (fun p => p.2)

/-- Gregorian leap year, as used by `datetime`. -/
def isLeapYear (y : Nat) : Bool := (y % 4 = 0 && y % 100 ≠ 0) || y % 400 = 0

/-- Days in a month, as used by `datetime`. -/
def daysInMonth (y m : Nat) : Nat :=
  if m = 2 then (if isLeapYear y then 29 else 28)
  else if m = 4 || m = 6 || m = 9 || m = 11 then 30
  else 31

/-- `DateExtractor._is_valid_date` on numeric day/month/year: the
`datetime(year, month, day)` constructor succeeds exactly on real
calendar dates with `1 ≤ year ≤ 9999`. -/
def isValidDMY (d m y : Nat) : Bool :=
  1 ≤ y && y ≤ 9999 && 1 ≤ m && m ≤ 12 && 1 ≤ d && d ≤ daysInMonth y m

/-- `DateExtractor._is_valid_date` on the captured digit strings. -/
def isValidDMYStr (d m y : List Char) : Bool :=
  isValidDMY (toNatD d) (toNatD m) (toNatD y)

/-- `re.match(ISO_DATE_PATTERN, t)` for `^\d{4}-\d{2}-\d{2}$` on the
already-stripped text (the `$`-before-trailing-newline case cannot
occur after `strip()`). -/
def isoMatch (l : List Char) : Bool :=
  l.length = 10 && (l.take 4).all isDigitCh && (l.drop 4).take 1 = ['-'] &&
    ((l.drop 5).take 2).all isDigitCh && (l.drop 7).take 1 = ['-'] &&
    ((l.drop 8).take 2).all isDigitCh

/-- The span consumed between a suffix and its residual suffix. -/
def spanTo (s r : List Char) : List Char := s.take (s.length - r.length)

/-- Anchored match of `SIMPLE_DATE_PATTERN` `(\d{1,2}/\d{1,2}/\d{4})`,
returning the day, month and year digit groups. -/
def matchSimpleAt (s : List Char) : Option (List Char × List Char × List Char) :=
  ((pRep isDigitCh 1 2 s).flatMap (fun r1 =>
    (pLitCh '/' r1).flatMap (fun r2 =>
      (pRep isDigitCh 1 2 r2).flatMap (fun r3 =>
        (pLitCh '/' r3).flatMap (fun r4 =>
          (pRep isDigitCh 4 4 r4).map (fun r5 =>
            (spanTo s r1, spanTo r2 r3, spanTo r4 r5))))))).head?

/-- `re.search(SIMPLE_DATE_PATTERN, t)`: leftmost match. -/
def searchSimple : List Char → Option (List Char × List Char × List Char)
  | [] => none
  | c :: cs =>
    match matchSimpleAt (c :: cs) with
    | some t => some t
    | none => searchSimple cs

/-- Anchored match of `MONTH_DATE_PATTERN`
`(\d{1,2})\s+de\s+([a-z]+)\s+de\s+(\d{4})` under `re.IGNORECASE`,
returning the day, month-name and year groups. -/
def matchMonthAt (s : List Char) : Option (List Char × List Char × List Char) :=
  ((pRep isDigitCh 1 2 s).flatMap (fun r1 =>
    (pSeq (pPlus pyIsSpace) (pSeq (pLitCI "de") (pPlus pyIsSpace)) r1).flatMap (fun r2 =>
      (pPlus isAlphaCI r2).flatMap (fun r3 =>
        (pSeq (pPlus pyIsSpace) (pSeq (pLitCI "de") (pPlus pyIsSpace)) r3).flatMap (fun r4 =>
          (pRep isDigitCh 4 4 r4).map (fun r5 =>
            (spanTo s r1, spanTo r2 r3, spanTo r4 r5))))))).head?

/-- `re.search(MONTH_DATE_PATTERN, t, re.IGNORECASE)`: leftmost match. -/
def searchMonth : List Char → Option (List Char × List Char × List Char)
  | [] => none
  | c :: cs =>
    match matchMonthAt (c :: cs) with
    | some t => some t
    | none => searchMonth cs

/-- The ISO output `f"{year}-{month}-{day.zfill(2)}"`; in the numeric
branch the month is additionally `zfill(2)`-padded, which is the
identity on the two-digit table months of the extended branch. -/
def isoFormat (y m d : List Char) : String :=
  String.mk y ++ "-" ++ zfill2 (String.mk m) ++ "-" ++ zfill2 (String.mk d)

/-- Extended-date branch of `DateExtractor.normalize_any`. -/
def normalizeMonthBranch (t : List Char) : Option String :=
  match searchMonth t with
  | some (d, mname, y) =>
    match monthLookup (String.mk (pyLowerStr mname)) with
    | some mm => if isValidDMYStr d mm.toList y then some (isoFormat y mm.toList d) else none
    | none => none
  | none => none

/-- `DateExtractor.normalize_any`: strip; pass ISO text through; else
try the numeric form (falling through on an invalid date), else the
extended Portuguese form. -/
def normalize_any (text : String) : Option String :=
  let t := pyStrip text.toList
  if isoMatch t then some (String.mk t)
  else
    match searchSimple t with
    | some (d, m, y) =>
      if isValidDMYStr d m y then some (isoFormat y m d) else normalizeMonthBranch t
    | none => normalizeMonthBranch t

/-- The group `\d{1,2}[\/\-]\d{1,2}[\/\-]\d{4}` of the level-0 patterns. -/
def slashDashDatePat : Pat :=
  pSeq (pRep isDigitCh 1 2) (pSeq (pCh (fun c => c = '/' || c = '-'))
    (pSeq (pRep isDigitCh 1 2) (pSeq (pCh (fun c => c = '/' || c = '-'))
      (pRep isDigitCh 4 4))))

/-- The group `\d{1,2}\s+de\s+[a-z]+\s+de\s+\d{4}` of the level-0
extended patterns (searched without flags in lowercased text). -/
def extDateLowerPat : Pat :=
  pSeq (pRep isDigitCh 1 2) (pSeq (pPlus pyIsSpace) (pSeq (pLit "de")
    (pSeq (pPlus pyIsSpace) (pSeq (pPlus isLowerAZ) (pSeq (pPlus pyIsSpace)
      (pSeq (pLit "de") (pSeq (pPlus pyIsSpace) (pRep isDigitCh 4 4))))))))

/-- Prefix `WORD\s+em\s+` of the direct signature patterns. -/
def cueEmPat (w : String) : Pat :=
  pSeq (pLit w) (pSeq (pPlus pyIsSpace) (pSeq (pLit "em") (pPlus pyIsSpace)))

/-- The ordered `signature_patterns` list of
`DateExtractor.extract_signature_date_level_0` (searched without flags
in the NFKD-normalized, lowercased text; the literal `São\s+Paulo`
pattern keeps its original capital and composed accent). -/
def signature_patterns : List CPat :=
  [⟨false, cueEmPat "assinado", slashDashDatePat, pEps⟩,
   ⟨false, cueEmPat "firmado", slashDashDatePat, pEps⟩,
   ⟨false, cueEmPat "subscrito", slashDashDatePat, pEps⟩,
   ⟨false, pSeq (pLit "datado") (pSeq (pPlus pyIsSpace) (pSeq (pLit "de") (pPlus pyIsSpace))),
     slashDashDatePat, pEps⟩,
   ⟨false, pSeq (pLit "São") (pSeq (pPlus pyIsSpace) (pSeq (pLit "Paulo")
     (pSeq (pOpt (pLitCh ',')) (pStar pyIsSpace)))), slashDashDatePat, pEps⟩,
   ⟨false, cueEmPat "assinado", extDateLowerPat, pEps⟩,
   ⟨false, cueEmPat "firmado", extDateLowerPat, pEps⟩]

/-- `DateExtractor.extract_signature_date_level_0`: NFKD-normalize and
lowercase the OCR text, then return the first cue-phrase date that
normalizes. -/
def extract_signature_date_level_0 (ocr : String) : Option String :=
  if ocr = "" then none
  else
    let tl := pyLowerStr (nfkd ocr.toList)
    (signature_patterns.flatMap (fun cp =>
      (finditerCPat cp tl).filterMap (fun m => normalize_any (String.mk m.cap)))).head?

/-- `SIMPLE_DATE_PATTERN` as a search pattern of the proximity scan. -/
def simpleCPat : CPat :=
  ⟨false, pEps, pSeq (pRep isDigitCh 1 2) (pSeq (pLitCh '/')
    (pSeq (pRep isDigitCh 1 2) (pSeq (pLitCh '/') (pRep isDigitCh 4 4)))), pEps⟩

/-- `EXTENDED_DATE_PATTERN` `\d+\s+de\s+[a-z]+\s+de\s+\d{4}` under
`re.IGNORECASE`; the whole match is the captured text (`group(0)`). -/
def extendedCPat : CPat :=
  ⟨false, pEps, pSeq (pPlus isDigitCh) (pSeq (pPlus pyIsSpace) (pSeq (pLitCI "de")
    (pSeq (pPlus pyIsSpace) (pSeq (pPlus isAlphaCI) (pSeq (pPlus pyIsSpace)
      (pSeq (pLitCI "de") (pSeq (pPlus pyIsSpace) (pRep isDigitCh 4 4)))))))), pEps⟩

/-- All numeric-form matches collected by the proximity scan. -/
def simpleMatchesIn (t : List Char) : List RMatch := finditerCPat simpleCPat t

/-- All extended-form matches collected by the proximity scan. -/
def extendedMatchesIn (t : List Char) : List RMatch := finditerCPat extendedCPat t

/-- The legal-citation keywords of `_is_date_in_law_context`. -/
def lawKeywords : List String :=
  ["lei", "decreto", "portaria", "resolução", "medida provisória"]

/-- `DateExtractor._is_date_in_law_context`: look up the first
occurrence of the date string and test the 100 characters before it for
a legal-citation keyword. -/
def isDateInLawContext (t dateStr : List Char) : Bool :=
  match findSubstr dateStr t with
  | none => false
  | some p =>
    let ctx := pyLowerStr ((t.take p).drop (p - 100))
    lawKeywords.any (fun k => isSubstring k.toList ctx)

/-- The signature-section keywords of `_check_signature_section_proximity`. -/
def sigKeywords : List String :=
  ["assinatura", "assina", "testemunha", "sócio", "administrador",
   "diretor", "presidente", "outorgante", "outorgado"]

/-- `DateExtractor._check_signature_section_proximity`: 10 points per
listed keyword present in the ±500-character window. -/
def checkSignatureSectionProximity (t : List Char) (pos : Nat) : Nat :=
  let ctx := pyLowerStr ((t.take (pos + 500)).drop (pos - 500))
  sigKeywords.foldl (fun sc k => if isSubstring k.toList ctx then sc + 10 else sc) 0

/-- The name pattern `\b[A-Z][a-z]+(?:\s+[A-Z][a-z]+)+\b`. -/
def nameCPat : CPat :=
  ⟨true, pEps, pSeq (pCh isUpperAZ) (pSeq (pPlus isLowerAZ)
    (pPlusPat (pSeq (pPlus pyIsSpace) (pSeq (pCh isUpperAZ) (pPlus isLowerAZ))))), pWordBreak⟩

/-- `DateExtractor._count_names_near_date`: number of name-pattern
matches in the ±500-character window. -/
def countNamesNearDate (t : List Char) (pos : Nat) : Nat :=
  ((finditerCPat nameCPat ((t.take (pos + 500)).drop (pos - 500)))).length

/-- One entry of the `dates_found` list: normalized date, raw date
string, total score. -/
structure Cand where
  normalized : String
  dateStr : String
  score : Nat
deriving DecidableEq

/-- Candidate construction shared by both loops of
`find_signature_date_by_proximity`: normalize, discard legal-citation
context, score by section proximity plus `10 ×` name count. -/
def candFromMatch (t : List Char) (m : RMatch) : Option Cand :=
  match normalize_any (String.mk m.cap) with
  | none => none
  | some norm =>
    if isDateInLawContext t m.cap then none
    else some ⟨norm, String.mk m.cap,
      checkSignatureSectionProximity t m.pos + countNamesNearDate t m.pos * 10⟩

/-- The `dates_found` list: all surviving numeric-form candidates (in
scan order) followed by all surviving extended-form candidates (in scan
order). -/
def dates_found (t : List Char) : List Cand :=
  (simpleMatchesIn t).filterMap (candFromMatch t) ++
    (extendedMatchesIn t).filterMap (candFromMatch t)

/-- Stable insertion of a later element into a descending-by-score
list: it goes after every earlier element of equal or larger score. -/
def insCandDesc (x : Cand) : List Cand → List Cand
  | [] => [x]
  | y :: ys => if x.score ≥ y.score then x :: y :: ys else y :: insCandDesc x ys

/-- `dates_found.sort(key=lambda x: x[2], reverse=True)`: the stable
descending sort by score. -/
def sortCandsDesc (l : List Cand) : List Cand := l.foldr insCandDesc []

/-- `DateExtractor.find_signature_date_by_proximity`: collect and score
candidates over the NFKD-normalized text, sort by score descending
(stable), return the top normalized date. -/
def find_signature_date_by_proximity (ocr : String) : Option String :=
  if ocr = "" then none
  else
    let tN := nfkd ocr.toList
    match sortCandsDesc (dates_found tN) with
    | [] => none
    | c :: _ => some c.normalized

/-- Specification-side selection: the first candidate, in list order,
whose score no later candidate exceeds ("select the highest-scoring
candidate; ties keep the first one encountered"). -/
def firstMaxCand : List Cand → Option Cand
  | [] => none
  | x :: xs =>
    match firstMaxCand xs with
    | none => some x
    | some m => if x.score ≥ m.score then some x else some m

/-! ### Document classifier (`src/extractors/document_extractor.py`) -/

/-- `\s+` inside the classification patterns. -/
def wsPlus : Pat := pPlus pyIsSpace

/-- A word followed by `\s+`. -/
def wordWS (w : String) : Pat := pSeq (pLit w) wsPlus

/-- The optional non-capturing group `(?:WORD\s+)?`. -/
def optWordWS (w : String) : Pat := pOpt (wordWS w)

/-- The class pair `ALTERA[ÇC][ÃA]O`. -/
def alteracaoPat : Pat :=
  pSeq (pLit "ALTERA") (pSeq (pCh (fun c => c = 'Ç' || c = 'C'))
    (pSeq (pCh (fun c => c = 'Ã' || c = 'A')) (pLit "O")))

/-- The class pair `ORDIN[AÁ]RIA`. -/
def ordinariaPat : Pat :=
  pSeq (pLit "ORDIN") (pSeq (pCh (fun c => c = 'A' || c = 'Á')) (pLit "RIA"))

/-- The class pair `EXTRAORDIN[AÁ]RIA`. -/
def extraordinariaPat : Pat :=
  pSeq (pLit "EXTRAORDIN") (pSeq (pCh (fun c => c = 'A' || c = 'Á')) (pLit "RIA"))

/-- The pattern `ATA\s+(?:DA\s+)?ASSEMBLEIA\s+GERAL`. -/
def ataAssembleiaGeralPat : Pat :=
  pSeq (wordWS "ATA") (pSeq (optWordWS "DA") (pSeq (wordWS "ASSEMBLEIA") (pLit "GERAL")))

/-- One classification rule: pattern, display name, type code. -/
structure DocRule where
  pat : Pat
  docName : String
  docType : String

/-- The ordered `DOCUMENT_PATTERNS` rule list (order matters: most
specific patterns first). -/
def DOCUMENT_PATTERNS : List DocRule :=
  [⟨pSeq (wordWS "INSTRUMENTO") (pSeq (wordWS "PARTICULAR") (pSeq (wordWS "DE")
      (pSeq (pOpt (pAlt (pLit "PRIMEIRA") (pAlt (pLit "SEGUNDA") (pAlt (pLit "TERCEIRA")
        (pAlt (pLit "QUARTA") (pLit "QUINTA"))))))
      (pSeq (pStar pyIsSpace) (pSeq alteracaoPat (pSeq wsPlus (pSeq (optWordWS "DO")
        (pSeq (wordWS "CONTRATO") (pLit "SOCIAL"))))))))),
    "Instrumento Particular de Alteração Contrato Social", "CONTRATO_SOCIAL"⟩,
   ⟨pSeq (wordWS "INSTRUMENTO") (pSeq (wordWS "PARTICULAR") (pSeq (wordWS "DE") alteracaoPat)),
    "Instrumento Particular de Alteração", "CONTRATO_SOCIAL"⟩,
   ⟨pSeq (wordWS "INSTRUMENTO") (pLit "PARTICULAR"),
    "Instrumento Particular", "CONTRATO_SOCIAL"⟩,
   ⟨pSeq (pLit "CONSTITUI") (pSeq (pCh (fun c => c = 'Ç' || c = 'C'))
      (pSeq (pCh (fun c => c = 'Ã' || c = 'A')) (pSeq (pLit "O") (pSeq wsPlus
        (pSeq (optWordWS "POR") (pOpt (pSeq (pLit "TRANSFORMA")
          (pSeq (pCh (fun c => c = 'Ç' || c = 'C'))
            (pSeq (pCh (fun c => c = 'Ã' || c = 'A')) (pLit "O")))))))))),
    "Constituição por Transformação de Empresário em Sociedade", "CONTRATO_SOCIAL"⟩,
   ⟨pSeq alteracaoPat (pSeq wsPlus (pLit "CONTRATUAL")),
    "Alteração Contratual", "CONTRATO_SOCIAL"⟩,
   ⟨pSeq alteracaoPat (pSeq wsPlus (pSeq (optWordWS "DO") (pSeq (wordWS "CONTRATO") (pLit "SOCIAL")))),
    "Alteração Contrato Social", "CONTRATO_SOCIAL"⟩,
   ⟨pSeq (wordWS "ADITAMENTO") (pSeq (optWordWS "AO") (pLit "CONTRATO")),
    "Aditamento ao Contrato Social", "ADITAMENTO"⟩,
   ⟨pSeq (wordWS "TERMO") (pLit "ADITIVO"), "Termo Aditivo", "ADITAMENTO"⟩,
   ⟨pLit "ADITAMENTO", "Aditamento", "ADITAMENTO"⟩,
   ⟨pSeq ataAssembleiaGeralPat (pSeq wsPlus (pSeq ordinariaPat (pSeq wsPlus
      (pSeq (wordWS "E") extraordinariaPat)))),
    "Ata de Assembleia Geral Ordinária e Extraordinária", "ATA_DE_ASSEMBLEIA"⟩,
   ⟨pSeq ataAssembleiaGeralPat (pSeq wsPlus extraordinariaPat),
    "Ata de Assembleia Geral Extraordinária", "ATA_DE_ASSEMBLEIA"⟩,
   ⟨pSeq ataAssembleiaGeralPat (pSeq wsPlus ordinariaPat),
    "Ata de Assembleia Geral Ordinária", "ATA_DE_ASSEMBLEIA"⟩,
   ⟨ataAssembleiaGeralPat, "Ata de Assembleia Geral", "ATA_DE_ASSEMBLEIA"⟩,
   ⟨pSeq (wordWS "ATA") (pSeq (optWordWS "DE") (pSeq (pLit "ELEI")
      (pSeq (pCh (fun c => c = 'Ç' || c = 'C'))
        (pSeq (pCh (fun c => c = 'Ã' || c = 'A')) (pLit "O"))))),
    "Ata de Eleição", "ATA_DE_ELEICAO"⟩,
   ⟨pSeq (wordWS "ATA") (pSeq (optWordWS "DE") (pSeq (pLit "REUNI")
      (pSeq (pCh (fun c => c = 'Ã' || c = 'A')) (pLit "O")))),
    "Ata de Reunião", "ATA_DE_ASSEMBLEIA"⟩,
   ⟨pSeq (wordWS "ESTATUTO") (pSeq (pLit "SOCIAL") (pOpt (pSeq wsPlus (pLit "CONSOLIDADO")))),
    "Estatuto Social", "ESTATUTO_SOCIAL"⟩,
   ⟨pSeq (wordWS "CONTRATO") (pLit "SOCIAL"), "Contrato Social", "CONTRATO_SOCIAL"⟩,
   ⟨pSeq (pOpt (pSeq (wordWS "INSTRUMENTO") (pSeq (pOpt (pSeq (pLit "P")
      (pSeq (pCh (fun c => c = 'U' || c = 'Ú')) (pSeq (pLit "BLICO") wsPlus))))
        (optWordWS "DE")))) (pSeq (pLit "PROCURA")
      (pSeq (pCh (fun c => c = 'Ç' || c = 'C'))
        (pSeq (pCh (fun c => c = 'Ã' || c = 'A')) (pLit "O")))),
    "Procuração", "PROCURACAO"⟩,
   ⟨pSeq (pLit "CERTID") (pSeq (pCh (fun c => c = 'Ã' || c = 'A')) (pLit "O")),
    "Certidão Simplificada", "CERTIDAO"⟩,
   ⟨pSeq (wordWS "FICHA") (pLit "CADASTRAL"), "Ficha Cadastral", "FICHA_CADASTRAL"⟩]

/-- Boolean `re.search`: does the pattern match anywhere? -/
def regexSearch (p : Pat) : List Char → Bool
  | [] => !(p []).isEmpty
  | c :: cs => !(p (c :: cs)).isEmpty || regexSearch p cs

/-- `re.sub(r'\s+', ' ', t)`: collapse whitespace runs to one space. -/
def collapseWSAux : Bool → List Char → List Char
  | _, [] => []
  | prevSpace, c :: cs =>
    if pyIsSpace c then
      if prevSpace then collapseWSAux true cs else ' ' :: collapseWSAux true cs
    else c :: collapseWSAux false cs

/-- Whitespace collapse over a character list. -/
def collapseWS (l : List Char) : List Char := collapseWSAux false l

/-- The filter of `DocumentExtractor.extract_document_name`:
`'Procuração' in doc_name or 'PROCURAÇÃO' in doc_name.upper()`. -/
def nameIsProcuracao (name : String) : Bool :=
  isSubstring ("Procuração").toList name.toList ||
    isSubstring ("PROCURAÇÃO").toList (pyUpperStr name.toList)

/-- The rule loop of `extract_document_name`: a matching rule whose
display name denotes a power of attorney is skipped and the scan
continues with the next rule. -/
def extractNameAux : List DocRule → List Char → String
  | [], _ => DATA_NOT_AVAILABLE
  | r :: rest, s =>
    if regexSearch r.pat s then
      if nameIsProcuracao r.docName then extractNameAux rest s else r.docName
    else extractNameAux rest s

/-- `DocumentExtractor.extract_document_name`: uppercase, collapse
whitespace, scan the ordered rules with the procuration filter. -/
def extract_document_name (ocr : String) : String :=
  if ocr = "" then DATA_NOT_AVAILABLE
  else extractNameAux DOCUMENT_PATTERNS (collapseWS (pyUpperStr ocr.toList))

/-- The rule loop of `identify_document_type` (no filter). -/
def identifyTypeAux : List DocRule → List Char → String
  | [], _ => "DOCUMENTO_GENERICO"
  | r :: rest, s => if regexSearch r.pat s then r.docType else identifyTypeAux rest s

/-- `DocumentExtractor.identify_document_type`: uppercase, collapse
whitespace, return the type code of the first matching rule. -/
def identify_document_type (text : String) : String :=
  if text = "" then "DOCUMENTO_GENERICO"
  else identifyTypeAux DOCUMENT_PATTERNS (collapseWS (pyUpperStr text.toList))

/-! ### Representative records
(`src/extractors/representative_extractor.py`,
`src/validators/representative_validator.py`)

A representative dictionary is modelled as a record of its ten fields;
a key that is absent from the dictionary is modelled as the empty
string, which every access in these functions treats identically
(reads are `rep.get(field, '')` or guarded by a falsiness test, and
`normalize_any` maps `""` to `None`). -/

/-- One representative record. -/
structure Rep where
  nome : String
  cpf : String
  cargo : String
  endereco_residencia : String
  tipo_assinatura : String
  origem_assinatura : String
  regras_representacao : String
  origem_regras_representacao : String
  data_validade_regras : String
  origem_data_validade : String
deriving DecidableEq

/-- One field of the fill loop of
`RepresentativeExtractor.validate_and_filter`: a missing or falsy value
becomes the sentinel. -/
def fillRE (v : String) : String := if v = "" then DATA_NOT_AVAILABLE else v

/-- The fill loop of `RepresentativeExtractor.validate_and_filter`. -/
def fillEmptyRE (r : Rep) : Rep :=
  { nome := fillRE r.nome, cpf := fillRE r.cpf, cargo := fillRE r.cargo,
    endereco_residencia := fillRE r.endereco_residencia,
    tipo_assinatura := fillRE r.tipo_assinatura,
    origem_assinatura := fillRE r.origem_assinatura,
    regras_representacao := fillRE r.regras_representacao,
    origem_regras_representacao := fillRE r.origem_regras_representacao,
    data_validade_regras := fillRE r.data_validade_regras,
    origem_data_validade := fillRE r.origem_data_validade }

/-- The `PROCURADOR_KEYWORDS` list. -/
def PROCURADOR_KEYWORDS : List String :=
  ["PROCURADOR", "OUTORGADO", "MANDATÁRIO", "MANDATARIO"]

/-- Is the uppercased role a procurer role? -/
def isProcuradorCargo (cargo : String) : Bool :=
  PROCURADOR_KEYWORDS.any (fun k => isSubstring k.toList (pyUpperStr cargo.toList))

/-- The deduplication loop of
`RepresentativeExtractor.validate_and_filter`: records whose name is
empty or the sentinel are dropped; others are kept on first occurrence
of their stripped, uppercased name. -/
def dedupREAux : List Rep → List String → List Rep
  | [], _ => []
  | r :: rest, seen =>
    if r.nome ≠ "" ∧ r.nome ≠ DATA_NOT_AVAILABLE then
      let norm := String.mk (pyUpperStr (pyStrip r.nome.toList))
      if seen.contains norm then dedupREAux rest seen
      else r :: dedupREAux rest (norm :: seen)
    else dedupREAux rest seen

/-- `RepresentativeExtractor.validate_and_filter`: fill empty fields,
filter procurer roles, deduplicate by name. -/
def validate_and_filter (reps : List Rep) : List Rep :=
  if reps = [] then []
  else
    let filled := reps.map fillEmptyRE
    let filtered := filled.filter (fun r => !isProcuradorCargo r.cargo)
    dedupREAux filtered []

/-- `RepresentativeExtractor.calculate_count`: number of records whose
name is truthy and not the sentinel. -/
def calculate_count (reps : List Rep) : Nat :=
  if reps = [] then 0
  else reps.foldl (fun n r =>
    if r.nome ≠ "" ∧ r.nome ≠ DATA_NOT_AVAILABLE then n + 1 else n) 0

/-- One field of `RepresentativeValidator._fill_empty_fields`: a
missing, falsy or whitespace-only value becomes the sentinel. -/
def fillRV (v : String) : String :=
  if v = "" ∨ pyStrip v.toList = [] then DATA_NOT_AVAILABLE else v

/-- `RepresentativeValidator._fill_empty_fields` (the legacy `endereco`
key removal concerns a key outside the modelled record). -/
def fillEmptyRV (r : Rep) : Rep :=
  { nome := fillRV r.nome, cpf := fillRV r.cpf, cargo := fillRV r.cargo,
    endereco_residencia := fillRV r.endereco_residencia,
    tipo_assinatura := fillRV r.tipo_assinatura,
    origem_assinatura := fillRV r.origem_assinatura,
    regras_representacao := fillRV r.regras_representacao,
    origem_regras_representacao := fillRV r.origem_regras_representacao,
    data_validade_regras := fillRV r.data_validade_regras,
    origem_data_validade := fillRV r.origem_data_validade }

/-- One pair of `RepresentativeValidator._validate_field_consistency`:
when the principal field is the sentinel and the origin is not, the
origin is corrected to the sentinel; when the principal holds a real
value and the origin is the sentinel or falsy, the anomaly is only
printed and the origin is returned unchanged. -/
def fixPairRV (main origin : String) : String :=
  if main = DATA_NOT_AVAILABLE then
    if origin ≠ DATA_NOT_AVAILABLE then DATA_NOT_AVAILABLE else origin
  else origin

/-- `RepresentativeValidator._validate_field_consistency` over the
three `field_pairs`. -/
def validateFieldConsistency (r : Rep) : Rep :=
  let r1 := { r with origem_assinatura := fixPairRV r.tipo_assinatura r.origem_assinatura }
  let r2 := { r1 with
    origem_regras_representacao := fixPairRV r1.regras_representacao r1.origem_regras_representacao }
  { r2 with origem_data_validade := fixPairRV r2.data_validade_regras r2.origem_data_validade }

/-! ### Response builder and orchestrator
(`src/processors/response_builder.py`, `src/core/processor.py`) -/

/-- Python `' '.join(s.split())`: maximal non-whitespace runs joined by
single spaces.  The accumulator carries the current run reversed. -/
def pySplitAux : List Char → List Char → List (List Char)
  | [], cur => if cur = [] then [] else [cur.reverse]
  | c :: cs, cur =>
    if pyIsSpace c then
      if cur = [] then pySplitAux cs [] else cur.reverse :: pySplitAux cs []
    else pySplitAux cs (c :: cur)

/-- Python `s.split()` (no separator argument). -/
def pySplit (l : List Char) : List (List Char) := pySplitAux l []

/-- Python `' '.join(parts)` on character lists. -/
def spaceJoin : List (List Char) → List Char
  | [] => []
  | [x] => x
  | x :: y :: rest => x ++ ' ' :: spaceJoin (y :: rest)

/-- The cleanup `' '.join(field.split())` of `ResponseBuilder.clean_output`. -/
def joinSplit (s : String) : String := String.mk (spaceJoin (pySplit s.toList))

/-- The extracted-data dictionary consumed by the response builder; a
field is `none` when its key is absent. -/
structure DataOut where
  junta_comercial : Option String
  cnpj : Option String
  razao_social : Option String
  natureza_juridica : Option String
  endereco : Option String
  cotas_societarias : Option String
  representantes_legais : Option String
  referencia_da_origem : Option String
  data_assinatura : Option String
  poderes_e_representacao : Option String
  representantes_detalhados : Option (List Rep)
  quantidade_representantes : Option Nat
deriving DecidableEq

/-- `ResponseBuilder.normalize_output`: re-normalize the CNPJ when
present, the signature date when it re-normalizes, and each
representative's rules-validity date when it re-normalizes. -/
def normalize_output (d : DataOut) : DataOut :=
  let d1 :=
    match d.cnpj with
    | some v => { d with cnpj := some (normalize v) }
    | none => d
  let d2 :=
    match d1.data_assinatura with
    | some v =>
      match normalize_any v with
      | some n => { d1 with data_assinatura := some n }
      | none => d1
    | none => d1
  match d2.representantes_detalhados with
  | some reps =>
    { d2 with representantes_detalhados := some (reps.map (fun rep =>
        match normalize_any rep.data_validade_regras with
        | some n => { rep with data_validade_regras := n }
        | none => rep)) }
  | none => d2

/-- One required field of `ResponseBuilder.validate_required_fields`:
an absent, falsy or whitespace-only value is replaced by the sentinel. -/
def reqField (v : Option String) : Option String :=
  match v with
  | none => some DATA_NOT_AVAILABLE
  | some s =>
    if s = "" ∨ pyStrip s.toList = [] then some DATA_NOT_AVAILABLE else some s

/-- `ResponseBuilder.validate_required_fields`: default every required
string field to the sentinel, the representative list to `[]`, and the
count to the length of the representative list. -/
def validate_required_fields (d : DataOut) : DataOut :=
  let reps := d.representantes_detalhados.getD []
  { junta_comercial := reqField d.junta_comercial,
    cnpj := reqField d.cnpj,
    razao_social := reqField d.razao_social,
    natureza_juridica := reqField d.natureza_juridica,
    endereco := reqField d.endereco,
    cotas_societarias := reqField d.cotas_societarias,
    representantes_legais := reqField d.representantes_legais,
    referencia_da_origem := reqField d.referencia_da_origem,
    data_assinatura := reqField d.data_assinatura,
    poderes_e_representacao := reqField d.poderes_e_representacao,
    representantes_detalhados := some reps,
    quantidade_representantes :=
      match d.quantidade_representantes with
      | some n => some n
      | none => some reps.length }

/-- `ResponseBuilder.clean_output`: collapse whitespace on every
present designated string field. -/
def clean_output (d : DataOut) : DataOut :=
  { d with
    junta_comercial := d.junta_comercial.map joinSplit,
    cnpj := d.cnpj.map joinSplit,
    razao_social := d.razao_social.map joinSplit,
    natureza_juridica := d.natureza_juridica.map joinSplit,
    endereco := d.endereco.map joinSplit,
    cotas_societarias := d.cotas_societarias.map joinSplit,
    representantes_legais := d.representantes_legais.map joinSplit,
    referencia_da_origem := d.referencia_da_origem.map joinSplit,
    data_assinatura := d.data_assinatura.map joinSplit,
    poderes_e_representacao := d.poderes_e_representacao.map joinSplit }

/-- The final pipeline of `CoreProcessor.build_final_response` on the
data dictionary: normalize, validate required fields, clean. -/
def buildFinalData (d : DataOut) : DataOut :=
  clean_output (validate_required_fields (normalize_output d))

/-- The sentinel or a string in the exact format `DD.DDD.DDD/DDDD-DD`
(specification-side shape predicate). -/
def isCNPJFormat (v : String) : Bool :=
  let l := v.toList
  l.length = 18 && (l.take 2).all isDigitCh && (l.drop 2).take 1 = ['.'] &&
    ((l.drop 3).take 3).all isDigitCh && (l.drop 6).take 1 = ['.'] &&
    ((l.drop 7).take 3).all isDigitCh && (l.drop 10).take 1 = ['/'] &&
    ((l.drop 11).take 4).all isDigitCh && (l.drop 15).take 1 = ['-'] &&
    ((l.drop 16).take 2).all isDigitCh

/-- The document cap `MAX_DOCUMENTS` of `CoreProcessor.process_pdfs`. -/
def MAX_DOCUMENTS : Nat := 3

/-- The URI list actually iterated by `CoreProcessor.process_pdfs`
after the cap is applied. -/
def processedUris (pdf_uris : List String) : List String :=
  if pdf_uris.length > MAX_DOCUMENTS then pdf_uris.take MAX_DOCUMENTS else pdf_uris

/-- The `document_info` dictionary stored on the receipt. -/
structure DocInfo where
  total_documents : Nat
  processed_documents : Nat
  is_multiple_documents : Bool
  exceeded_limit : Bool
  ignored_documents : List String
deriving DecidableEq

/-- The `document_info` computation of `CoreProcessor.process_pdfs`:
the cap reassigns `pdf_uris` before `ignored_documents` is sliced, so
the slice `pdf_uris[MAX_DOCUMENTS:]` is taken from the already
truncated list. -/
def processPdfsDocumentInfo (pdf_uris0 : List String) : DocInfo :=
  let total_docs := pdf_uris0.length
  let pdf_uris := if total_docs > MAX_DOCUMENTS then pdf_uris0.take MAX_DOCUMENTS else pdf_uris0
  { total_documents := total_docs,
    processed_documents := pdf_uris.length,
    is_multiple_documents := pdf_uris.length > 1,
    exceeded_limit := total_docs > MAX_DOCUMENTS,
    ignored_documents := if total_docs > MAX_DOCUMENTS then pdf_uris.drop MAX_DOCUMENTS else [] }

/-- `doc.split('/')[-1] if '/' in doc else doc`. -/
def stripPath (doc : String) : String :=
  if doc.toList.contains '/' then (doc.splitOn "/").getLastD doc else doc

/-- The `document_metadata` block of `ResponseBuilder.build_response`
(the optional priority/changes/conflict sub-blocks are advisory
attachments outside the scope of the claims over this builder). -/
structure Metadata where
  total_documents : Nat
  processed_documents : Nat
  is_multiple_documents : Bool
  processing_type : String
  exceeded_limit : Bool
  warning : Option String
  ignored_documents : Option (List String)
deriving DecidableEq

/-- The metadata assembly of `ResponseBuilder.build_response`: the
warning and the ignored list are emitted only when `exceeded_limit` is
set and the stored `ignored_documents` list is non-empty (truthy). -/
def buildResponseMetadata (info : DocInfo) : Metadata :=
  let base : Metadata :=
    { total_documents := info.total_documents,
      processed_documents := info.processed_documents,
      is_multiple_documents := info.is_multiple_documents,
      processing_type := if info.is_multiple_documents then "LOTE" else "ÚNICO",
      exceeded_limit := info.exceeded_limit,
      warning := none,
      ignored_documents := none }
  if info.exceeded_limit ∧ info.ignored_documents ≠ [] then
    { base with
      warning := some ("Limite de 3 documentos excedido. Total recebido: " ++
        toString info.total_documents ++ ". Processados: " ++
        toString info.processed_documents ++ ". Ignorados: " ++
        toString info.ignored_documents.length),
      ignored_documents := some (info.ignored_documents.map stripPath) }
  else base

/-! ## Theorems -/

/-- C1.  The document cap truncates `pdf_uris` in place before the
`ignored_documents` slice is taken, so on a four-document batch exactly
three documents are iterated and `exceeded_limit` is set with
`processed_documents = 3`, but the stored ignored list is empty and the
emitted metadata block carries neither the warning nor the
`ignored_documents` key — the fourth URI is recorded nowhere. -/
theorem C1_cap_loses_ignored_documents :
    processedUris ["s3://b/a.pdf", "s3://b/b.pdf", "s3://b/c.pdf", "s3://b/d.pdf"] =
      ["s3://b/a.pdf", "s3://b/b.pdf", "s3://b/c.pdf"] ∧
    (processPdfsDocumentInfo ["s3://b/a.pdf", "s3://b/b.pdf", "s3://b/c.pdf", "s3://b/d.pdf"]).exceeded_limit = true ∧
    (processPdfsDocumentInfo ["s3://b/a.pdf", "s3://b/b.pdf", "s3://b/c.pdf", "s3://b/d.pdf"]).processed_documents = 3 ∧
    (processPdfsDocumentInfo ["s3://b/a.pdf", "s3://b/b.pdf", "s3://b/c.pdf", "s3://b/d.pdf"]).ignored_documents = [] ∧
    (buildResponseMetadata (processPdfsDocumentInfo ["s3://b/a.pdf", "s3://b/b.pdf", "s3://b/c.pdf", "s3://b/d.pdf"])).warning = none ∧
    (buildResponseMetadata (processPdfsDocumentInfo ["s3://b/a.pdf", "s3://b/b.pdf", "s3://b/c.pdf", "s3://b/d.pdf"])).ignored_documents = none := by
  decide

/-- C2.  Although the month table maps `março` to `03`, the NFKD
normalization decomposes its cedilla into a combining mark that the
`[a-z]+` class cannot match, so the explicit cue phrase
`assinado em 10 de março de 2023` yields no level-0 signature date
(and `normalize_any` itself already rejects the accented month name),
while the unaccented spelling resolves as documented. -/
theorem C2_marco_accent_breaks_level0 :
    monthLookup "março" = some "03" ∧
    normalize_any "10 de março de 2023" = none ∧
    extract_signature_date_level_0 "assinado em 10 de março de 2023" = none ∧
    extract_signature_date_level_0 "assinado em 10 de marco de 2023" = some "2023-03-10" := by
  decide

/-- Every character of a digit-only form is a digit. -/
theorem mem_digitsOf_isDigit (l : List Char) (c : Char) (hc : c ∈ digitsOf l) :
    isDigitCh c = true := List.of_mem_filter hc

/-- Reassembling the four take/drop blocks of the CNPJ format yields
the original digit list. -/
theorem cnpj_blocks_reassemble (d : List Char) :
    d.take 2 ++ ((d.drop 2).take 3 ++ ((d.drop 5).take 3 ++ ((d.drop 8).take 4 ++ d.drop 12))) = d := by
  have h12 : (d.drop 8).take 4 ++ d.drop 12 = d.drop 8 := by
    have h := List.take_append_drop 4 (d.drop 8)
    rwa [List.drop_drop] at h
  have h8 : (d.drop 5).take 3 ++ d.drop 8 = d.drop 5 := by
    have h := List.take_append_drop 3 (d.drop 5)
    rwa [List.drop_drop] at h
  have h5 : (d.drop 2).take 3 ++ d.drop 5 = d.drop 2 := by
    have h := List.take_append_drop 3 (d.drop 2)
    rwa [List.drop_drop] at h
  rw [h12, h8, h5, List.take_append_drop]

/-- Stripping non-digits from a formatted CNPJ recovers its digits. -/
theorem digitsOf_formatCNPJ (d : List Char) (hd : ∀ c ∈ d, isDigitCh c = true) :
    digitsOf (formatCNPJ d).toList = d := by
  have hTake : ∀ (n : Nat) (l : List Char), (∀ c ∈ l, isDigitCh c = true) →
      List.filter isDigitCh (l.take n) = l.take n := by
    intro n l hl
    exact List.filter_eq_self.mpr (fun c hc => hl c (List.mem_of_mem_take hc))
  have hDrop : ∀ (n : Nat) (l : List Char), (∀ c ∈ l, isDigitCh c = true) →
      List.filter isDigitCh (l.drop n) = l.drop n := by
    intro n l hl
    exact List.filter_eq_self.mpr (fun c hc => hl c (List.mem_of_mem_drop hc))
  have hdd : ∀ (n : Nat), ∀ c ∈ d.drop n, isDigitCh c = true :=
    fun n c hc => hd c (List.mem_of_mem_drop hc)
  show List.filter isDigitCh (formatCNPJ d).toList = d
  have : (formatCNPJ d).toList =
      d.take 2 ++ '.' :: ((d.drop 2).take 3 ++ '.' ::
        ((d.drop 5).take 3 ++ '/' :: ((d.drop 8).take 4 ++ '-' :: d.drop 12))) := rfl
  rw [this]
  simp only [List.filter_append, List.filter_cons]
  norm_num [isDigitCh]
  rw [hTake 2 d hd, hTake 3 (d.drop 2) (hdd 2), hTake 3 (d.drop 5) (hdd 5),
    hTake 4 (d.drop 8) (hdd 8), hDrop 12 d hd]
  exact cnpj_blocks_reassemble d

/-- A formatted CNPJ is a non-empty string. -/
theorem formatCNPJ_ne_empty (d : List Char) : formatCNPJ d ≠ "" := by
  intro h
  have : (formatCNPJ d).toList = ("" : String).toList := by rw [h]
  have hnil : d.take 2 ++ '.' :: ((d.drop 2).take 3 ++ '.' ::
      ((d.drop 5).take 3 ++ '/' :: ((d.drop 8).take 4 ++ '-' :: d.drop 12))) = [] := this
  rcases List.append_eq_nil.mp hnil with ⟨_, h2⟩
  exact List.cons_ne_nil _ _ h2

/-- `CNPJExtractor.normalize` returns the empty string or the
formatted form of the input's 14 digits. -/
theorem normalize_cases (s : String) :
    normalize s = "" ∨
      (normalize s = formatCNPJ (digitsOf s.toList) ∧ (digitsOf s.toList).length = 14) := by
  unfold normalize
  by_cases hs : s = ""
  · rw [if_pos hs]; exact Or.inl rfl
  · rw [if_neg hs]
    by_cases hl : (digitsOf s.toList).length = 14
    · rw [if_neg (not_not_intro hl)]
      exact Or.inr ⟨rfl, hl⟩
    · rw [if_pos hl]
      exact Or.inl rfl

/-- Normalizing an already formatted 14-digit value changes nothing. -/
theorem normalize_formatCNPJ (d : List Char) (hd : ∀ c ∈ d, isDigitCh c = true)
    (hl : d.length = 14) : normalize (formatCNPJ d) = formatCNPJ d := by
  unfold normalize
  rw [if_neg (formatCNPJ_ne_empty d), digitsOf_formatCNPJ d hd]
  simp [hl]

/-- `CNPJExtractor.normalize` is idempotent. -/
theorem normalize_idem (s : String) : normalize (normalize s) = normalize s := by
  rcases normalize_cases s with h | ⟨h, hl⟩
  · rw [h]; rfl
  · rw [h]
    exact normalize_formatCNPJ _ (mem_digitsOf_isDigit s.toList) hl

/-- C5.  For every OCR text, CNPJ normalization is idempotent on the
extraction result: normalizing the extracted value twice yields the
same string as normalizing it once. -/
theorem C5_normalize_extract_idempotent (t : String) :
    normalize (normalize (extract_from_ocr t)) = normalize (extract_from_ocr t) :=
  normalize_idem (extract_from_ocr t)

/-- C4 counterexample.  In a text where a bare 14-digit number precedes
a differently-valued labeled CNPJ, extraction returns the bare value,
not the labeled one. -/
theorem C4_counterexample_bare_wins :
    extract_from_ocr "Valor 11111111111111 consta. CNPJ: 22.333.444/0001-55" =
      "11.111.111/1111-11" ∧
    normalize "22.333.444/0001-55" = "22.333.444/0001-55" ∧
    ("11.111.111/1111-11" : String) ≠ "22.333.444/0001-55" := by
  decide

/-- C4 amended.  The pattern list tries the bare optionally-punctuated
scan first: whenever that first pattern yields a 14-digit match, its
normalization is the extraction result and the labeled patterns are
never consulted. -/
theorem C4_amended_bare_patterns_first (t v : String)
    (h : tryPatternCNPJ cnpjPat1 t.toList = some v) : extract_from_ocr t = v := by
  by_cases ht : t = ""
  · rw [ht] at h
    have hnone : tryPatternCNPJ cnpjPat1 ("" : String).toList = none := by decide
    rw [hnone] at h
    exact Option.noConfusion h
  · rw [extract_from_ocr, if_neg ht]
    simp only [cnpj_patterns, List.filterMap_cons, h]
    rfl

/-- Witness for C4: the first pattern hits on a bare digit string and
the theorem yields the extraction result. -/
theorem C4_amended_bare_patterns_first_witness :
    extract_from_ocr "12345678000195" = "12.345.678/0001-95" :=
  C4_amended_bare_patterns_first "12345678000195" "12.345.678/0001-95" (by decide)

/-- C3 counterexample.  An impossible calendar date written in the ISO
form is accepted unchanged by `normalize_any`. -/
theorem C3_counterexample_iso_not_validated :
    normalize_any "2023-02-31" = some "2023-02-31" ∧ isValidDMY 31 2 2023 = false := by
  decide

/-- The extended-date branch only accepts calendar-valid dates. -/
theorem monthBranch_shape (t : List Char) (r : String)
    (h : normalizeMonthBranch t = some r) :
    ∃ ds ms ys : List Char, isValidDMYStr ds ms ys = true ∧ r = isoFormat ys ms ds := by
  unfold normalizeMonthBranch at h
  split at h
  · split at h
    · split at h
      · exact ⟨_, _, _, by assumption, (Option.some_inj.mp h).symm⟩
      · exact absurd h (by simp)
    · exact absurd h (by simp)
  · exact absurd h (by simp)

/-- C3 amended.  Every value accepted by `normalize_any` either is an
ISO-form input passed through verbatim with no calendar validation, or
was produced from a numeric or extended match of a calendar-valid
day/month/year combination. -/
theorem C3_amended_validation_scope (s r : String) (h : normalize_any s = some r) :
    (isoMatch (pyStrip s.toList) = true ∧ r = String.mk (pyStrip s.toList)) ∨
    (∃ ds ms ys : List Char, isValidDMYStr ds ms ys = true ∧ r = isoFormat ys ms ds) := by
  unfold normalize_any at h
  by_cases hiso : isoMatch (pyStrip s.toList) = true
  · rw [if_pos hiso] at h
    exact Or.inl ⟨hiso, (Option.some_inj.mp h).symm⟩
  · rw [if_neg hiso] at h
    split at h
    · split at h
      · exact Or.inr ⟨_, _, _, by assumption, (Option.some_inj.mp h).symm⟩
      · exact Or.inr (monthBranch_shape _ _ h)
    · exact Or.inr (monthBranch_shape _ _ h)

/-- Witness for C3: a valid numeric date is accepted and falls in the
calendar-validated disjunct. -/
theorem C3_amended_validation_scope_witness :
    (isoMatch (pyStrip ("10/03/2023").toList) = true ∧
      ("2023-03-10" : String) = String.mk (pyStrip ("10/03/2023").toList)) ∨
    (∃ ds ms ys : List Char, isValidDMYStr ds ms ys = true ∧
      ("2023-03-10" : String) = isoFormat ys ms ds) :=
  C3_amended_validation_scope "10/03/2023" "2023-03-10" (by decide)

/-- The display-name scan never returns a name the procuration filter
would have skipped. -/
theorem extractNameAux_not_procuracao (rules : List DocRule) (s : List Char) :
    extractNameAux rules s = DATA_NOT_AVAILABLE ∨
      nameIsProcuracao (extractNameAux rules s) = false := by
  induction rules with
  | nil => exact Or.inl rfl
  | cons r rest ih =>
    rw [extractNameAux]
    by_cases hm : regexSearch r.pat s = true
    · rw [if_pos hm]
      by_cases hp : nameIsProcuracao r.docName = true
      · rw [if_pos hp]; exact ih
      · rw [if_neg hp]
        exact Or.inr (Bool.not_eq_true _ |>.mp hp)
    · rw [if_neg hm]; exact ih

/-- C6.  Display-name extraction never returns the power-of-attorney
display name, while for the text `PROCURAÇÃO` — matched only by the
procuration rule — type classification still returns `PROCURACAO` and
the display name falls back to the sentinel. -/
theorem C6_procuracao_asymmetry :
    (∀ t : String, extract_document_name t ≠ "Procuração") ∧
    identify_document_type "PROCURAÇÃO" = "PROCURACAO" ∧
    extract_document_name "PROCURAÇÃO" = DATA_NOT_AVAILABLE := by
  refine ⟨fun t => ?_, by decide, by decide⟩
  intro hEq
  by_cases ht : t = ""
  · rw [extract_document_name, if_pos ht] at hEq
    exact absurd hEq (by decide)
  · rw [extract_document_name, if_neg ht] at hEq
    rcases extractNameAux_not_procuracao DOCUMENT_PATTERNS
      (collapseWS (pyUpperStr t.toList)) with h | h
    · rw [hEq] at h
      exact absurd h (by decide)
    · rw [hEq] at h
      exact absurd h (by decide)

/-- C7.  For each of the three principal/origin pairs: a sentinel
principal field with a real origin value forces the origin to the
sentinel, while a real principal value with a sentinel origin leaves
both fields of the pair unchanged (the anomaly is only logged). -/
theorem C7_field_origin_consistency (r : Rep) :
    (r.tipo_assinatura = DATA_NOT_AVAILABLE →
      (validateFieldConsistency r).origem_assinatura = DATA_NOT_AVAILABLE) ∧
    (r.regras_representacao = DATA_NOT_AVAILABLE →
      (validateFieldConsistency r).origem_regras_representacao = DATA_NOT_AVAILABLE) ∧
    (r.data_validade_regras = DATA_NOT_AVAILABLE →
      (validateFieldConsistency r).origem_data_validade = DATA_NOT_AVAILABLE) ∧
    (r.tipo_assinatura ≠ DATA_NOT_AVAILABLE → r.tipo_assinatura ≠ "" →
      r.origem_assinatura = DATA_NOT_AVAILABLE →
      (validateFieldConsistency r).tipo_assinatura = r.tipo_assinatura ∧
      (validateFieldConsistency r).origem_assinatura = r.origem_assinatura) ∧
    (r.regras_representacao ≠ DATA_NOT_AVAILABLE → r.regras_representacao ≠ "" →
      r.origem_regras_representacao = DATA_NOT_AVAILABLE →
      (validateFieldConsistency r).regras_representacao = r.regras_representacao ∧
      (validateFieldConsistency r).origem_regras_representacao = r.origem_regras_representacao) ∧
    (r.data_validade_regras ≠ DATA_NOT_AVAILABLE → r.data_validade_regras ≠ "" →
      r.origem_data_validade = DATA_NOT_AVAILABLE →
      (validateFieldConsistency r).data_validade_regras = r.data_validade_regras ∧
      (validateFieldConsistency r).origem_data_validade = r.origem_data_validade) := by
  refine ⟨?_, ?_, ?_, ?_, ?_, ?_⟩ <;>
    simp only [validateFieldConsistency, fixPairRV] <;> intros <;> simp_all

/-- Witness for C7: a sentinel principal with a real origin is
corrected; a real principal with a sentinel origin is left alone. -/
theorem C7_field_origin_consistency_witness :
    (validateFieldConsistency
        ⟨"n", "c", "crg", "e", DATA_NOT_AVAILABLE, "origem real", "r", "o", "d", "od"⟩).origem_assinatura =
      DATA_NOT_AVAILABLE ∧
    (validateFieldConsistency
        ⟨"n", "c", "crg", "e", "tipo real", DATA_NOT_AVAILABLE, "r", "o", "d", "od"⟩).origem_assinatura =
      (⟨"n", "c", "crg", "e", "tipo real", DATA_NOT_AVAILABLE, "r", "o", "d", "od"⟩ : Rep).origem_assinatura :=
  ⟨(C7_field_origin_consistency
      ⟨"n", "c", "crg", "e", DATA_NOT_AVAILABLE, "origem real", "r", "o", "d", "od"⟩).1 rfl,
   ((C7_field_origin_consistency
      ⟨"n", "c", "crg", "e", "tipo real", DATA_NOT_AVAILABLE, "r", "o", "d", "od"⟩).2.2.2.1
      (by decide) (by decide) rfl).2⟩

/-- Every record surviving the deduplication loop has a usable name. -/
theorem dedupREAux_valid_names (l : List Rep) (seen : List String) (r : Rep)
    (hr : r ∈ dedupREAux l seen) : r.nome ≠ "" ∧ r.nome ≠ DATA_NOT_AVAILABLE := by
  induction l generalizing seen with
  | nil => exact absurd hr (List.not_mem_nil r)
  | cons x rest ih =>
    rw [dedupREAux] at hr
    by_cases hx : x.nome ≠ "" ∧ x.nome ≠ DATA_NOT_AVAILABLE
    · rw [if_pos hx] at hr
      by_cases hseen : seen.contains (String.mk (pyUpperStr (pyStrip x.nome.toList))) = true
      · rw [if_pos hseen] at hr
        exact ih seen hr
      · rw [if_neg hseen] at hr
        rcases List.mem_cons.mp hr with hEq | hmem
        · rw [hEq]; exact hx
        · exact ih _ hmem
    · rw [if_neg hx] at hr
      exact ih seen hr

/-- The counting loop counts every record when all names are usable. -/
theorem count_fold_all_valid (l : List Rep)
    (h : ∀ r ∈ l, r.nome ≠ "" ∧ r.nome ≠ DATA_NOT_AVAILABLE) (n : Nat) :
    l.foldl (fun n r =>
      if r.nome ≠ "" ∧ r.nome ≠ DATA_NOT_AVAILABLE then n + 1 else n) n = n + l.length := by
  induction l generalizing n with
  | nil => simp
  | cons x rest ih =>
    rw [List.foldl_cons, if_pos (h x (List.mem_cons_self x rest))]
    rw [ih (fun r hr => h r (List.mem_cons_of_mem x hr)) (n + 1)]
    simp [List.length_cons]
    omega

/-- C9.  Every record returned by `validate_and_filter` has a
non-empty, non-sentinel name (records lacking a usable name are dropped
by the deduplication loop), so `calculate_count` on the returned list
equals its length. -/
theorem C9_filtered_names_usable_count_eq_length (reps : List Rep) :
    (∀ r, r ∈ validate_and_filter reps → r.nome ≠ "" ∧ r.nome ≠ DATA_NOT_AVAILABLE) ∧
    calculate_count (validate_and_filter reps) = (validate_and_filter reps).length := by
  have hvalid : ∀ r, r ∈ validate_and_filter reps →
      r.nome ≠ "" ∧ r.nome ≠ DATA_NOT_AVAILABLE := by
    intro r hr
    rw [validate_and_filter] at hr
    by_cases hreps : reps = []
    · rw [if_pos hreps] at hr
      exact absurd hr (List.not_mem_nil r)
    · rw [if_neg hreps] at hr
      exact dedupREAux_valid_names _ _ _ hr
  refine ⟨hvalid, ?_⟩
  rw [calculate_count]
  by_cases hnil : validate_and_filter reps = []
  · rw [if_pos hnil, hnil]; rfl
  · rw [if_neg hnil, count_fold_all_valid _ hvalid 0]
    omega

/-- Witness for C9: a one-record list keeps its named record, whose
name the theorem certifies, and the count equals the length. -/
theorem C9_filtered_names_usable_count_eq_length_witness :
    ((fillEmptyRE ⟨"Maria", "", "", "", "", "", "", "", "", ""⟩).nome ≠ "" ∧
      (fillEmptyRE ⟨"Maria", "", "", "", "", "", "", "", "", ""⟩).nome ≠ DATA_NOT_AVAILABLE) ∧
    calculate_count (validate_and_filter [⟨"Maria", "", "", "", "", "", "", "", "", ""⟩]) =
      (validate_and_filter [⟨"Maria", "", "", "", "", "", "", "", "", ""⟩]).length :=
  ⟨(C9_filtered_names_usable_count_eq_length [⟨"Maria", "", "", "", "", "", "", "", "", ""⟩]).1
      (fillEmptyRE ⟨"Maria", "", "", "", "", "", "", "", "", ""⟩) (by decide),
   (C9_filtered_names_usable_count_eq_length [⟨"Maria", "", "", "", "", "", "", "", "", ""⟩]).2⟩

/-- The head of the stable descending sort is the first candidate of
maximal score. -/
theorem head_sortCandsDesc (l : List Cand) :
    (sortCandsDesc l).head? = firstMaxCand l := by
  induction l with
  | nil => rfl
  | cons x xs ih =>
    rw [sortCandsDesc, List.foldr_cons]
    cases hs : sortCandsDesc xs with
    | nil =>
      have hb : firstMaxCand xs = none := by rw [← ih, hs]; rfl
      rw [show List.foldr insCandDesc [] xs = sortCandsDesc xs from rfl, hs,
        firstMaxCand, hb]
      rfl
    | cons y ys =>
      have hb : firstMaxCand xs = some y := by rw [← ih, hs]; rfl
      rw [show List.foldr insCandDesc [] xs = sortCandsDesc xs from rfl, hs,
        firstMaxCand, hb]
      by_cases hcmp : x.score ≥ y.score
      · rw [insCandDesc, if_pos hcmp]
        simp [hcmp]
      · rw [insCandDesc, if_neg hcmp]
        simp [hcmp]

/-- C8 amended.  Proximity selection returns exactly the normalized
date of the first maximal-score entry of the `dates_found` candidate
list, whose order lists every surviving numeric-form date (document
order) before every surviving extended-form date (document order) —
ties are broken by that collection order, not by global document scan
order. -/
theorem C8_amended_first_max_in_collection_order (ocr : String) :
    find_signature_date_by_proximity ocr =
      (firstMaxCand (dates_found (nfkd ocr.toList))).map Cand.normalized := by
  rw [find_signature_date_by_proximity]
  by_cases h : ocr = ""
  · rw [if_pos h, h]
    decide
  · rw [if_neg h]
    have hhead := head_sortCandsDesc (dates_found (nfkd ocr.toList))
    rw [← hhead]
    show (match sortCandsDesc (dates_found (nfkd ocr.toList)) with
      | [] => none
      | c :: _ => some c.normalized) =
      Option.map Cand.normalized (sortCandsDesc (dates_found (nfkd ocr.toList))).head?
    cases sortCandsDesc (dates_found (nfkd ocr.toList)) with
    | nil => rfl
    | cons c cs => rfl

/-- C8 counterexample.  Two zero-score candidates: the extended-form
date opens the document (position 0) and the numeric-form date follows
(position 23); the claimed scan-order tie-break would return
`2020-01-01`, but the numeric-before-extended collection order makes
the selection return `2021-02-02`. -/
theorem C8_counterexample_tie_not_scan_order :
    (simpleMatchesIn (nfkd ("1 de janeiro de 2020 e 02/02/2021").toList)).map RMatch.pos = [23] ∧
    (extendedMatchesIn (nfkd ("1 de janeiro de 2020 e 02/02/2021").toList)).map RMatch.pos = [0] ∧
    dates_found (nfkd ("1 de janeiro de 2020 e 02/02/2021").toList) =
      [⟨"2021-02-02", "02/02/2021", 0⟩, ⟨"2020-01-01", "1 de janeiro de 2020", 0⟩] ∧
    find_signature_date_by_proximity "1 de janeiro de 2020 e 02/02/2021" = some "2021-02-02" ∧
    (some "2021-02-02" : Option String) ≠ some "2020-01-01" := by
  refine ⟨by decide, by decide, by decide, by decide, by decide⟩

/-- A digit character is not whitespace. -/
theorem isDigitCh_not_space (c : Char) (h : isDigitCh c = true) : pyIsSpace c = false := by
  by_contra hs
  rw [Bool.not_eq_false] at hs
  simp only [pyIsSpace, Bool.or_eq_true, decide_eq_true_eq] at hs
  rcases hs with ((((rfl | rfl) | rfl) | rfl) | rfl) | rfl <;> exact absurd h (by decide)

/-- A formatted CNPJ satisfies the `DD.DDD.DDD/DDDD-DD` shape. -/
theorem isCNPJFormat_formatCNPJ (d : List Char)
    (hd : ∀ c ∈ d, isDigitCh c = true) (hl : d.length = 14) :
    isCNPJFormat (formatCNPJ d) = true := by
  rcases d with _ | ⟨c1, d⟩; · exact absurd hl (by simp)
  rcases d with _ | ⟨c2, d⟩; · exact absurd hl (by simp)
  rcases d with _ | ⟨c3, d⟩; · exact absurd hl (by simp)
  rcases d with _ | ⟨c4, d⟩; · exact absurd hl (by simp)
  rcases d with _ | ⟨c5, d⟩; · exact absurd hl (by simp)
  rcases d with _ | ⟨c6, d⟩; · exact absurd hl (by simp)
  rcases d with _ | ⟨c7, d⟩; · exact absurd hl (by simp)
  rcases d with _ | ⟨c8, d⟩; · exact absurd hl (by simp)
  rcases d with _ | ⟨c9, d⟩; · exact absurd hl (by simp)
  rcases d with _ | ⟨c10, d⟩; · exact absurd hl (by simp)
  rcases d with _ | ⟨c11, d⟩; · exact absurd hl (by simp)
  rcases d with _ | ⟨c12, d⟩; · exact absurd hl (by simp)
  rcases d with _ | ⟨c13, d⟩; · exact absurd hl (by simp)
  rcases d with _ | ⟨c14, d⟩; · exact absurd hl (by simp)
  rcases d with _ | ⟨c15, d⟩
  · simp only [List.mem_cons, List.not_mem_nil, or_false, forall_eq_or_imp] at hd
    obtain ⟨h1, h2, h3, h4, h5, h6, h7, h8, h9, h10, h11, h12, h13, h14⟩ := hd
    simp [isCNPJFormat, formatCNPJ, h1, h2, h3, h4, h5, h6, h7, h8, h9, h10, h11, h12, h13, h14]
  · exact absurd hl (by simp)

/-- A formatted CNPJ contains no whitespace. -/
theorem formatCNPJ_no_space (d : List Char) (hd : ∀ c ∈ d, isDigitCh c = true) :
    ∀ c ∈ (formatCNPJ d).toList, pyIsSpace c = false := by
  intro c hc
  have hmem : c ∈ d.take 2 ++ '.' :: ((d.drop 2).take 3 ++ '.' ::
      ((d.drop 5).take 3 ++ '/' :: ((d.drop 8).take 4 ++ '-' :: d.drop 12))) := hc
  have hdig : ∀ x ∈ d, pyIsSpace x = false := fun x hx => isDigitCh_not_space x (hd x hx)
  simp only [List.mem_append, List.mem_cons] at hmem
  rcases hmem with h | h | h | h | h | h | h | h | h
  · exact hdig c (List.mem_of_mem_take h)
  · rw [h]; rfl
  · exact hdig c (List.mem_of_mem_drop (List.mem_of_mem_take h))
  · rw [h]; rfl
  · exact hdig c (List.mem_of_mem_drop (List.mem_of_mem_take h))
  · rw [h]; rfl
  · exact hdig c (List.mem_of_mem_drop (List.mem_of_mem_take h))
  · rw [h]; rfl
  · exact hdig c (List.mem_of_mem_drop h)

/-- `dropWhile` is the identity when no element satisfies the predicate. -/
theorem dropWhile_of_none (p : Char → Bool) (l : List Char)
    (h : ∀ c ∈ l, p c = false) : l.dropWhile p = l := by
  cases l with
  | nil => rfl
  | cons c cs =>
    rw [List.dropWhile_cons, h c (List.mem_cons_self c cs)]
    simp

/-- Stripping is the identity on whitespace-free text. -/
theorem pyStrip_of_no_space (l : List Char) (h : ∀ c ∈ l, pyIsSpace c = false) :
    pyStrip l = l := by
  rw [pyStrip, dropWhile_of_none _ l h,
    dropWhile_of_none _ l.reverse (fun c hc => h c (List.mem_reverse.mp hc)),
    List.reverse_reverse]

/-- Splitting whitespace-free text yields the single run. -/
theorem pySplitAux_of_no_space (l cur : List Char) (h : ∀ c ∈ l, pyIsSpace c = false)
    (hne : l ≠ [] ∨ cur ≠ []) : pySplitAux l cur = [cur.reverse ++ l] := by
  induction l generalizing cur with
  | nil =>
    rcases hne with hl | hc
    · exact absurd rfl hl
    · rw [pySplitAux, if_neg hc]
      simp
  | cons c cs ih =>
    rw [pySplitAux, h c (List.mem_cons_self c cs)]
    simp only [Bool.false_eq_true, if_false]
    rw [ih (c :: cur) (fun x hx => h x (List.mem_cons_of_mem c hx)) (Or.inr (List.cons_ne_nil c cur))]
    simp

/-- Whitespace collapse is the identity on non-empty whitespace-free
strings. -/
theorem joinSplit_of_no_space (s : String) (h : ∀ c ∈ s.toList, pyIsSpace c = false)
    (hne : s.toList ≠ []) : joinSplit s = s := by
  rw [joinSplit, pySplit, pySplitAux_of_no_space s.toList [] h (Or.inl hne)]
  show String.mk s.toList = s
  rfl

/-- `validate_required_fields` keeps a non-blank CNPJ value. -/
theorem reqField_of_no_space (w : String) (hw : w ≠ "")
    (h : ∀ c ∈ w.toList, pyIsSpace c = false) : reqField (some w) = some w := by
  rw [reqField]
  have hlist : w.toList ≠ [] := by
    intro hnil
    exact hw (congrArg String.mk hnil)
  rw [if_neg]
  intro hcase
  rcases hcase with hcase | hcase
  · exact hw hcase
  · rw [pyStrip_of_no_space w.toList h] at hcase
    exact hlist hcase

/-- `normalize_output` maps the CNPJ field through `normalize` and
leaves an absent CNPJ key absent. -/
theorem normalize_output_cnpj (d : DataOut) :
    (normalize_output d).cnpj = d.cnpj.map normalize := by
  obtain ⟨ja, cn, rs, nj, en, cso, rl, ro, da, po, rd, qr⟩ := d
  rw [normalize_output]
  cases cn <;> cases da <;> cases rd <;>
    first
      | rfl
      | (dsimp only; split <;> rfl)
      | (dsimp only; split <;> (first | rfl | (split <;> rfl)))

/-- C10.  After the final build sequence the CNPJ field is always
present and either the sentinel or a string in the exact
`DD.DDD.DDD/DDDD-DD` shape — never raw or partially formatted digits —
because CNPJ normalization runs before the sentinel substitution. -/
theorem C10_final_cnpj_shape (d : DataOut) :
    (buildFinalData d).cnpj = some DATA_NOT_AVAILABLE ∨
      ∃ v, (buildFinalData d).cnpj = some v ∧ isCNPJFormat v = true := by
  have hval : (buildFinalData d).cnpj =
      ((reqField (normalize_output d).cnpj).map joinSplit) := rfl
  rw [hval, normalize_output_cnpj]
  cases hc : d.cnpj with
  | none =>
    left
    show (reqField none).map joinSplit = some DATA_NOT_AVAILABLE
    show some (joinSplit DATA_NOT_AVAILABLE) = some DATA_NOT_AVAILABLE
    decide
  | some v =>
    rcases normalize_cases v with hn | ⟨hn, hlen⟩
    · left
      show (reqField (some (normalize v))).map joinSplit = some DATA_NOT_AVAILABLE
      rw [hn]
      show some (joinSplit DATA_NOT_AVAILABLE) = some DATA_NOT_AVAILABLE
      decide
    · right
      have hdig := mem_digitsOf_isDigit v.toList
      have hnospace := formatCNPJ_no_space (digitsOf v.toList) hdig
      have hne : formatCNPJ (digitsOf v.toList) ≠ "" := formatCNPJ_ne_empty _
      refine ⟨formatCNPJ (digitsOf v.toList), ?_, isCNPJFormat_formatCNPJ _ hdig hlen⟩
      show (reqField (some (normalize v))).map joinSplit = _
      rw [hn, reqField_of_no_space _ hne hnospace]
      show some (joinSplit (formatCNPJ (digitsOf v.toList))) = _
      rw [joinSplit_of_no_space _ hnospace
        (fun hnil => hne (congrArg String.mk hnil))]

end Spec2Proof
